import Mathlib

/-!
Shallow embedding of the `log4g` logging package (`log4g.go`).

The package keeps global mutable state (the four category writers, a
`sync.Once` guard, an atomic `initialized` flag, the retention options);
we embed that state as an explicit `LogState` record threaded through the
functions.  External effects — the filesystem behaviour of `NewLogger`
(rotating-file sink construction) and of a sink's `Close`, and
`os.Hostname` — are parametrised by an `Env` oracle.  Setup and close
additionally return a trace of the side effects they performed (paths on
which `NewLogger` was invoked; categories on which `Close()` was called),
so that the "exactly once" and "fixed order" claims are statable.
-/

namespace Log4g

/-- Modelled from the spec: errors of the package.  The three named errors
are declared in `log4g.go` (`ErrLogPathNotSet`, `ErrLogNotInitialized`,
`ErrLogNameSpaceNotSet`); `ioError` stands for any error surfaced by the
filesystem through `NewLogger` or a sink's `Close` (that code is not under
`src/`; its call sites in `log4g.go` show it returns an `error`). -/
inductive GoError where
  | logPathNotSet
  | logNotInitialized
  | logNameSpaceNotSet
  | ioError (msg : String)
deriving DecidableEq, Repr

/-- Standard streams used by console mode (`os.Stdout` / `os.Stderr`). -/
inductive StdStream where
  | stdout
  | stderr
deriving DecidableEq, Repr

/-- A category writer (`io.WriteCloser`).  `consoleWriter` is the
`logWriter` built by `newLogWriter(log.New(stream, tag, flags))`;
`rotating` is the writer returned by `NewLogger(path, ...)` (rotating file
sink, code not under `src/`), identified by its base path. -/
inductive Sink where
  | consoleWriter (stream : StdStream) (tag : String)
  | rotating (path : String)
deriving DecidableEq, Repr

/-- `logOptions` from `log4g.go`. -/
structure logOptions where
  gzipEnabled : Bool
  logStackCoolDownMills : Int
  keepDays : Int
deriving DecidableEq, Repr

/-- `LogOption` from `log4g.go`: a mutator of `logOptions`. -/
def LogOption := logOptions → logOptions

/-- `WithCoolDownMillis` from `log4g.go`. -/
def WithCoolDownMillis (millis : Int) : LogOption :=
  fun opts => { opts with logStackCoolDownMills := millis }

/-- `WithKeepDays` from `log4g.go`. -/
def WithKeepDays (days : Int) : LogOption :=
  fun opts => { opts with keepDays := days }

/-- `WithGzip` from `log4g.go`. -/
def WithGzip : LogOption :=
  fun opts => { opts with gzipEnabled := true }

/-- `handleOptions` from `log4g.go`: apply each option in order. -/
def handleOptions (opts : List LogOption) (o : logOptions) : logOptions :=
  opts.foldl (fun acc f => f acc) o

/-- Modelled from the spec: the `Config` consumed by `SetUp`.  Its
definition is repository code not under `src/`; the fields are exactly
those `log4g.go` reads (`LogMode`, `Path`, `NameSpace`,
`StackCoolDownMillis`, `Compress`, `KeepDays`). -/
structure Config where
  LogMode : String
  Path : String
  NameSpace : String
  StackCoolDownMillis : Int
  Compress : Bool
  KeepDays : Int
deriving DecidableEq, Repr

/-- The package-level mutable state of `log4g.go`: `writeConsole`, the
four category writers, `stackLog` (a `LessLogger`, represented by its
cooldown argument), the `sync.Once` guard, the atomic `initialized` word,
and `options`. -/
structure LogState where
  writeConsole : Bool
  infoLog : Option Sink
  errorLog : Option Sink
  slowLog : Option Sink
  statLog : Option Sink
  stackLog : Option Int
  onceDone : Bool
  initialized : Nat
  options : logOptions
deriving DecidableEq, Repr

/-- The zero values of the package globals at process start. -/
def initialState : LogState :=
  { writeConsole := false
    infoLog := none
    errorLog := none
    slowLog := none
    statLog := none
    stackLog := none
    onceDone := false
    initialized := 0
    options := { gzipEnabled := false, logStackCoolDownMills := 0, keepDays := 0 } }

/-- Modelled from the spec: oracle for the external world.  `newLoggerErr p`
is the error (if any) that `NewLogger` returns when asked to open a
rotating sink at path `p`; `closeErr p` is the error (if any) returned by
closing the rotating sink at `p`; `hostname` is the result of
`os.Hostname()`. -/
structure Env where
  newLoggerErr : String → Option GoError
  closeErr : String → Option GoError
  hostname : Except Unit String

/-- Constants from `log4g.go` (the `Prefix` constants are named `Pfx`
here). -/
def accessFilename : String := "access.log"

def errorFilename : String := "error.log"

def slowFilename : String := "slow.log"

def statFilename : String := "stat.log"

def consoleMode : String := "console"

def varMode : String := "var"

def defaultHostName : String := "log4g"

def infoPfx : String := "[INFO] "

def errorPfx : String := "[ERROR] "

def slowPfx : String := "[SLOW]"

/-- Modelled from the spec: Go's `path.Join` for two clean, slash-free
components (stdlib code): non-empty components are joined with `/`. -/
def pathJoin (a b : String) : String :=
  if a = "" then b else if b = "" then a else a ++ "/" ++ b

/-- `getHostname` from `log4g.go`: fall back to `defaultHostName` when
resolution errors or yields an empty name. -/
def getHostname (env : Env) : String :=
  match env.hostname with
  | .error _ => defaultHostName
  | .ok h => if h = "" then defaultHostName else h

/-- `createOutput` from `log4g.go`: empty path fails with
`ErrLogPathNotSet`; otherwise the result of `NewLogger` (modelled by the
oracle; on success the rotating sink at that path). -/
def createOutput (env : Env) (p : String) : Except GoError Sink :=
  if p = "" then .error .logPathNotSet
  else
    match env.newLoggerErr p with
    | some e => .error e
    | none => .ok (.rotating p)

/-- Result of a setup call: the returned error, the new global state, and
the trace of paths on which `NewLogger` was invoked. -/
structure SetupResult where
  err : Option GoError
  state : LogState
  created : List String
deriving DecidableEq, Repr

/-- `setupWithConsole` from `log4g.go`: sets `writeConsole`, and under the
`once` guard installs the console writers (`statLog = infoLog`) and
publishes `initialized = 1`. -/
def setupWithConsole (s : LogState) : LogState :=
  let s := { s with writeConsole := true }
  if s.onceDone then s
  else
    { s with
      onceDone := true
      infoLog := some (.consoleWriter .stdout infoPfx)
      errorLog := some (.consoleWriter .stderr errorPfx)
      slowLog := some (.consoleWriter .stderr slowPfx)
      statLog := some (.consoleWriter .stdout infoPfx)
      initialized := 1 }

/-- `setupWithFiles` from `log4g.go`.  The `err` variable is local to each
call: when the `once` guard has already fired, the body is skipped and the
call returns `nil` regardless of the first call's outcome.  Inside the
guard, the body stops at the first failing `createOutput` (leaving that
category's writer `nil`) and only publishes `initialized = 1` after all
four succeed. -/
def setupWithFiles (env : Env) (c : Config) (s : LogState) : SetupResult :=
  if c.Path = "" then ⟨some .logPathNotSet, s, []⟩
  else
    let opts : List LogOption :=
      [WithCoolDownMillis c.StackCoolDownMillis]
        ++ (if c.Compress then [WithGzip] else [])
        ++ (if c.KeepDays > 0 then [WithKeepDays c.KeepDays] else [])
    let accessFile := pathJoin c.Path accessFilename
    let errorFile := pathJoin c.Path errorFilename
    let slowFile := pathJoin c.Path slowFilename
    let statFile := pathJoin c.Path statFilename
    if s.onceDone then ⟨none, s, []⟩
    else
      let s := { s with onceDone := true, options := handleOptions opts s.options }
      match createOutput env accessFile with
      | .error e => ⟨some e, { s with infoLog := none }, [accessFile]⟩
      | .ok w1 =>
        let s := { s with infoLog := some w1 }
        match createOutput env errorFile with
        | .error e => ⟨some e, { s with errorLog := none }, [accessFile, errorFile]⟩
        | .ok w2 =>
          let s := { s with errorLog := some w2 }
          match createOutput env slowFile with
          | .error e =>
            ⟨some e, { s with slowLog := none }, [accessFile, errorFile, slowFile]⟩
          | .ok w3 =>
            let s := { s with slowLog := some w3 }
            match createOutput env statFile with
            | .error e =>
              ⟨some e, { s with statLog := none },
                [accessFile, errorFile, slowFile, statFile]⟩
            | .ok w4 =>
              ⟨none,
                { s with
                  statLog := some w4
                  stackLog := some s.options.logStackCoolDownMills
                  initialized := 1 },
                [accessFile, errorFile, slowFile, statFile]⟩

/-- `setupWithVolume` from `log4g.go`: requires a non-empty namespace,
composes the path from namespace and resolved hostname, and delegates to
`setupWithFiles`. -/
def setupWithVolume (env : Env) (c : Config) (s : LogState) : SetupResult :=
  if c.NameSpace = "" then ⟨some .logNameSpaceNotSet, s, []⟩
  else
    let hostname := getHostname env
    setupWithFiles env
      { c with Path := pathJoin (pathJoin c.Path c.NameSpace) hostname } s

/-- `SetUp` from `log4g.go`: dispatch on `LogMode`. -/
def SetUp (env : Env) (c : Config) (s : LogState) : SetupResult :=
  if c.LogMode = consoleMode then ⟨none, setupWithConsole s, []⟩
  else if c.LogMode = varMode then setupWithVolume env c s
  else setupWithFiles env c s

/-- The error returned by closing one sink: `logWriter.Close` always
returns `nil` (from `log4g.go`); a rotating sink's close result comes from
the oracle (its code is not under `src/`). -/
def closeSink (env : Env) : Sink → Option GoError
  | .consoleWriter _ _ => none
  | .rotating p => env.closeErr p

/-- The `if xLog != nil { if err := xLog.Close(); ... } }` pattern: a `nil`
writer is skipped with no error. -/
def closeOne (env : Env) : Option Sink → Option GoError
  | none => none
  | some w => closeSink env w

/-- Trace entry: `Close()` is invoked on a writer only when it is not
`nil`. -/
def closeAttempt (w : Option Sink) (category : String) : List String :=
  match w with
  | none => []
  | some _ => [category]

/-- Result of `Close`: the returned error, the new global state, and the
categories on which `Close()` was actually invoked, in order. -/
structure CloseResult where
  err : Option GoError
  state : LogState
  attempted : List String
deriving DecidableEq, Repr

/-- `Close` from `log4g.go`: immediate `nil` in console mode; error
`ErrLogNotInitialized` when `initialized == 0`; otherwise store
`initialized = 0`, then close `infoLog`, `errorLog`, `slowLog`, `statLog`
in that order, returning early at the first close error. -/
def Close (env : Env) (s : LogState) : CloseResult :=
  if s.writeConsole then ⟨none, s, []⟩
  else if s.initialized = 0 then ⟨some .logNotInitialized, s, []⟩
  else
    let s := { s with initialized := 0 }
    let a1 := closeAttempt s.infoLog "info"
    match closeOne env s.infoLog with
    | some e => ⟨some e, s, a1⟩
    | none =>
      let a2 := a1 ++ closeAttempt s.errorLog "error"
      match closeOne env s.errorLog with
      | some e => ⟨some e, s, a2⟩
      | none =>
        let a3 := a2 ++ closeAttempt s.slowLog "slow"
        match closeOne env s.slowLog with
        | some e => ⟨some e, s, a3⟩
        | none =>
          let a4 := a3 ++ closeAttempt s.statLog "stat"
          match closeOne env s.statLog with
          | some e => ⟨some e, s, a4⟩
          | none => ⟨none, s, a4⟩

/-- Where one logging call lands: the raw fallback (`log.Print`, console),
a configured sink, or the `LessLogger` (`stackLog.Errorf`), each with the
formatted content. -/
inductive WriteEvent where
  | toFallback (content : String)
  | toSink (snk : Sink) (content : String)
  | toLess (coolDownMills : Option Int) (content : String)
deriving DecidableEq, Repr

/-- `AddTime` from `log4g.go`, with the formatted current time passed in
as `nowStr`: `now ++ " " ++ msg`. -/
def addTime (nowStr msg : String) : String :=
  nowStr ++ " " ++ msg

/-- `AddTimeAndCaller` from `log4g.go`, with the formatted time and the
`getCaller` result passed in: the caller tag (followed by a space) is
included only when non-empty. -/
def addTimeAndCaller (nowStr callerStr msg : String) : String :=
  nowStr ++ " " ++ (if callerStr = "" then "" else callerStr ++ " ") ++ msg

/-- `output` from `log4g.go`: timestamp the message, then write it to the
given writer, or to the raw fallback (`log.Print`) when the writer is
`nil`. -/
def output (nowStr : String) (w : Option Sink) (msg : String) : WriteEvent :=
  let buf := addTime nowStr msg
  match w with
  | some snk => .toSink snk buf
  | none => .toFallback buf

/-- `outputError` from `log4g.go`: like `output` but prepending the caller
location. -/
def outputError (nowStr callerStr : String) (w : Option Sink) (msg : String) :
    WriteEvent :=
  let content := addTimeAndCaller nowStr callerStr msg
  match w with
  | some snk => .toSink snk content
  | none => .toFallback content

/-- `infoSync` from `log4g.go`. -/
def infoSync (s : LogState) (nowStr msg : String) : WriteEvent :=
  if s.initialized = 0 then output nowStr none msg
  else output nowStr s.infoLog msg

/-- `errorSync` from `log4g.go`. -/
def errorSync (s : LogState) (nowStr callerStr msg : String) : WriteEvent :=
  if s.initialized = 0 then outputError nowStr callerStr none msg
  else outputError nowStr callerStr s.errorLog msg

/-- `slowSync` from `log4g.go`. -/
def slowSync (s : LogState) (nowStr msg : String) : WriteEvent :=
  if s.initialized = 0 then output nowStr none msg
  else output nowStr s.slowLog msg

/-- `statSync` from `log4g.go`. -/
def statSync (s : LogState) (nowStr msg : String) : WriteEvent :=
  if s.initialized = 0 then output nowStr none msg
  else output nowStr s.statLog msg

/-- `stackSync` from `log4g.go`, with the captured stack trace passed in
as `stackStr`: before initialization the combined message goes to the raw
fallback; afterwards to `stackLog.Errorf`. -/
def stackSync (s : LogState) (nowStr msg stackStr : String) : WriteEvent :=
  if s.initialized = 0 then output nowStr none (msg ++ "\n" ++ stackStr)
  else .toLess s.stackLog (msg ++ "\n" ++ stackStr)

/-! Concrete fixtures used by witnesses and counterexamples. -/

/-- An environment where every filesystem operation succeeds and the host
name resolves to `"host1"`. -/
def envOk : Env :=
  { newLoggerErr := fun _ => none
    closeErr := fun _ => none
    hostname := .ok "host1" }

/-- An environment where `NewLogger` fails for the access-log path. -/
def envFailAccess : Env :=
  { newLoggerErr := fun p => if p = "logs/access.log" then some (.ioError "open failed") else none
    closeErr := fun _ => none
    hostname := .ok "host1" }

/-- An environment where closing the access-log sink fails. -/
def envCloseFailAccess : Env :=
  { newLoggerErr := fun _ => none
    closeErr := fun p => if p = "logs/access.log" then some (.ioError "close failed") else none
    hostname := .ok "host1" }

/-- An environment where host-name resolution fails. -/
def envHostErr : Env :=
  { newLoggerErr := fun _ => none
    closeErr := fun _ => none
    hostname := .error () }

/-- A direct-file-mode configuration with base path `"logs"`. -/
def cfgFiles : Config :=
  { LogMode := "file"
    Path := "logs"
    NameSpace := ""
    StackCoolDownMillis := 50
    Compress := false
    KeepDays := 0 }

/-- The global state after a successful direct-file-mode `SetUp` from the
zero state. -/
def stFiles : LogState := (SetUp envOk cfgFiles initialState).state

/-! Helper lemmas. -/

theorem pathJoin_ne_empty (a b : String) (hb : b ≠ "") : pathJoin a b ≠ "" := by
  unfold pathJoin
  by_cases ha : a = ""
  · simp [ha, hb]
  · rw [if_neg ha, if_neg hb]
    intro h
    have hlen := congrArg String.length h
    rw [String.length_append, String.length_append] at hlen
    have hd : ("/" : String).length = 1 := rfl
    have he : ("" : String).length = 0 := rfl
    rw [hd, he] at hlen
    omega

theorem setupWithFiles_skip (env : Env) (c : Config) (s : LogState)
    (hp : ¬ c.Path = "") (ho : s.onceDone = true) :
    setupWithFiles env c s = ⟨none, s, []⟩ := by
  simp [setupWithFiles, hp, ho]

theorem setupWithFiles_sets_once (env : Env) (c : Config) (s : LogState)
    (hp : ¬ c.Path = "") (ho : s.onceDone = false) :
    (setupWithFiles env c s).state.onceDone = true := by
  unfold setupWithFiles
  simp only [hp, if_false, ho, Bool.false_eq_true]
  repeat' split
  all_goals rfl

theorem Close_state (env : Env) (st : LogState)
    (hwc : st.writeConsole = false) (hin : st.initialized ≠ 0) :
    (Close env st).state = { st with initialized := 0 } := by
  unfold Close
  simp only [hwc, Bool.false_eq_true, if_false, hin, ite_false]
  repeat' split
  all_goals rfl

theorem setupWithFiles_env_irrel (env env' : Env)
    (h : env.newLoggerErr = env'.newLoggerErr) (c : Config) (s : LogState) :
    setupWithFiles env c s = setupWithFiles env' c s := by
  have hco : createOutput env = createOutput env' := by
    funext p
    unfold createOutput
    rw [h]
  unfold setupWithFiles
  rw [hco]

/-! Claim theorems. -/

/-- Claim C1, counterexample: when the first file-mode `SetUp` fails inside
the `once`-guarded section (here `NewLogger` fails on the access-log path),
a second `SetUp` with the same configuration returns `nil` rather than the
first call's error, so callers after the first do not observe the same
outcome. -/
theorem C1_counterexample :
    (SetUp envFailAccess cfgFiles initialState).err = some (.ioError "open failed") ∧
    (SetUp envFailAccess cfgFiles
        (SetUp envFailAccess cfgFiles initialState).state).err = none := by
  constructor <;> rfl

/-- Claim C1, amended: for any file-mode configuration with a non-empty
path, a second `setupWithFiles` call performs no sink-creation work
(`created = []`), leaves the state unchanged, and returns `nil` — which
matches the first call's outcome when the first call succeeded, but is
`nil` even when the first call's guarded setup failed. -/
theorem C1_theorem (env : Env) (c : Config) (s : LogState) (hp : ¬ c.Path = "") :
    setupWithFiles env c (setupWithFiles env c s).state
      = ⟨none, (setupWithFiles env c s).state, []⟩ := by
  have honce : (setupWithFiles env c s).state.onceDone = true := by
    cases ho : s.onceDone
    · exact setupWithFiles_sets_once env c s hp ho
    · rw [setupWithFiles_skip env c s hp ho]
      exact ho
  exact setupWithFiles_skip env c (setupWithFiles env c s).state hp honce

/-- Claim C1, witness: the amended theorem applied to the concrete
direct-file configuration `cfgFiles` in the all-success environment. -/
theorem C1_witness :
    ¬ cfgFiles.Path = "" ∧
    setupWithFiles envOk cfgFiles (setupWithFiles envOk cfgFiles initialState).state
      = ⟨none, (setupWithFiles envOk cfgFiles initialState).state, []⟩ :=
  ⟨by decide, C1_theorem envOk cfgFiles initialState (by decide)⟩

/-- Claim C2, counterexample: after a successful file-mode setup, when
closing the access-log sink fails, `Close` returns that error but attempts
no further close — the error, slow and stat sinks are never closed, so it
does not "continue attempting to close the remaining sinks". -/
theorem C2_counterexample :
    (Close envCloseFailAccess stFiles).err = some (.ioError "close failed") ∧
    (Close envCloseFailAccess stFiles).attempted = ["info"] := by
  constructor <;> rfl

/-- Claim C2, amended: after a successful file-mode setup, `Close`
attempts to close the four sinks in the fixed order info, error, slow,
stat, but stops at and returns the first close error, leaving the
remaining sinks unclosed; it returns `nil` (having closed all four) only
when every close succeeds. -/
theorem C2_theorem (env : Env) (st : LogState) (w1 w2 w3 w4 : Sink)
    (hwc : st.writeConsole = false) (hin : st.initialized ≠ 0)
    (h1 : st.infoLog = some w1) (h2 : st.errorLog = some w2)
    (h3 : st.slowLog = some w3) (h4 : st.statLog = some w4) :
    (closeSink env w1 = none → closeSink env w2 = none → closeSink env w3 = none →
      closeSink env w4 = none →
      (Close env st).err = none ∧
      (Close env st).attempted = ["info", "error", "slow", "stat"]) ∧
    (∀ e, closeSink env w1 = some e →
      (Close env st).err = some e ∧ (Close env st).attempted = ["info"]) ∧
    (∀ e, closeSink env w1 = none → closeSink env w2 = some e →
      (Close env st).err = some e ∧ (Close env st).attempted = ["info", "error"]) ∧
    (∀ e, closeSink env w1 = none → closeSink env w2 = none → closeSink env w3 = some e →
      (Close env st).err = some e ∧
      (Close env st).attempted = ["info", "error", "slow"]) ∧
    (∀ e, closeSink env w1 = none → closeSink env w2 = none → closeSink env w3 = none →
      closeSink env w4 = some e →
      (Close env st).err = some e ∧
      (Close env st).attempted = ["info", "error", "slow", "stat"]) := by
  refine ⟨?_, ?_, ?_, ?_, ?_⟩ <;> intros <;>
    simp_all [Close, closeOne, closeAttempt, hwc, hin, h1, h2, h3, h4]

/-- Claim C2, witness: the amended theorem applied to the post-setup state
in the all-success environment: all four closes are attempted in order and
the result is `nil`. -/
theorem C2_witness :
    stFiles.writeConsole = false ∧ stFiles.initialized ≠ 0 ∧
    (Close envOk stFiles).err = none ∧
    (Close envOk stFiles).attempted = ["info", "error", "slow", "stat"] :=
  ⟨rfl, by decide,
    ((C2_theorem envOk stFiles (.rotating "logs/access.log") (.rotating "logs/error.log")
        (.rotating "logs/slow.log") (.rotating "logs/stat.log")
        rfl (by decide) rfl rfl rfl rfl).1 rfl rfl rfl rfl).1,
    ((C2_theorem envOk stFiles (.rotating "logs/access.log") (.rotating "logs/error.log")
        (.rotating "logs/slow.log") (.rotating "logs/stat.log")
        rfl (by decide) rfl rfl rfl rfl).1 rfl rfl rfl rfl).2⟩

/-- Claim C3, counterexample: `Close` called before any setup (from the
zero state, non-console) returns `ErrLogNotInitialized`, not success. -/
theorem C3_counterexample :
    (Close envOk initialState).err = some .logNotInitialized := by
  rfl

/-- Claim C3, amended: `Close` returns `nil` before setup only in console
mode; in non-console states it returns `ErrLogNotInitialized` both when
called before setup completed and when called a second time after a first
(error-free or not) `Close`. -/
theorem C3_theorem (env : Env) (st : LogState) :
    (st.writeConsole = true → (Close env st).err = none) ∧
    (st.writeConsole = false → st.initialized = 0 →
      (Close env st).err = some .logNotInitialized) ∧
    (st.writeConsole = false → st.initialized ≠ 0 →
      (Close env (Close env st).state).err = some .logNotInitialized) := by
  refine ⟨?_, ?_, ?_⟩
  · intro hwc
    simp [Close, hwc]
  · intro hwc hin
    simp [Close, hwc, hin]
  · intro hwc hin
    rw [Close_state env st hwc hin]
    simp [Close, hwc]

/-- Claim C3, witness: the amended theorem applied to the post-setup state
in the all-success environment: the second `Close` reports
`ErrLogNotInitialized`. -/
theorem C3_witness :
    stFiles.writeConsole = false ∧ stFiles.initialized ≠ 0 ∧
    (Close envOk (Close envOk stFiles).state).err = some .logNotInitialized :=
  ⟨rfl, by decide, (C3_theorem envOk stFiles).2.2 rfl (by decide)⟩

/-- Claim C4, counterexample: the readiness flag is not monotone — after a
successful file-mode setup it is `1`, and `Close` stores `0` back into
it. -/
theorem C4_counterexample :
    stFiles.initialized = 1 ∧ (Close envOk stFiles).state.initialized = 0 := by
  constructor <;> rfl

/-- Claim C4, amended: the readiness flag is set to ready by a fully
successful file-mode setup and is written back to not-ready by every
non-console `Close` that found it set; logging call sites only read it
(the sync dispatchers are pure functions of the state). -/
theorem C4_theorem (env : Env) (st : LogState)
    (hwc : st.writeConsole = false) (hin : st.initialized ≠ 0) :
    (Close env st).state.initialized = 0 ∧
    (∀ c s, (∀ p, env.newLoggerErr p = none) → ¬ c.Path = "" → s.onceDone = false →
      (setupWithFiles env c s).state.initialized = 1) := by
  constructor
  · rw [Close_state env st hwc hin]
  · intro c s hok hp ho
    have ha := pathJoin_ne_empty c.Path accessFilename (by decide)
    have hb := pathJoin_ne_empty c.Path errorFilename (by decide)
    have hc := pathJoin_ne_empty c.Path slowFilename (by decide)
    have hd := pathJoin_ne_empty c.Path statFilename (by decide)
    simp [setupWithFiles, createOutput, hok, hp, ho, ha, hb, hc, hd]

/-- Claim C4, witness: the amended theorem applied to the post-setup state
in the all-success environment. -/
theorem C4_witness :
    stFiles.writeConsole = false ∧ stFiles.initialized ≠ 0 ∧
    (Close envOk stFiles).state.initialized = 0 ∧
    (setupWithFiles envOk cfgFiles initialState).state.initialized = 1 :=
  ⟨rfl, by decide, (C4_theorem envOk stFiles rfl (by decide)).1,
    (C4_theorem envOk stFiles rfl (by decide)).2 cfgFiles initialState
      (fun _ => rfl) (by decide) rfl⟩

/-- Claim C5: for every namespaced-volume configuration whose namespace is
empty, `SetUp` returns `ErrLogNameSpaceNotSet`, leaves the state
unchanged, and creates no sink. -/
theorem C5_theorem (env : Env) (c : Config) (s : LogState)
    (hmode : c.LogMode = varMode) (hns : c.NameSpace = "") :
    SetUp env c s = ⟨some .logNameSpaceNotSet, s, []⟩ := by
  simp [SetUp, setupWithVolume, hmode, hns, varMode, consoleMode]

/-- Claim C5, witness: the theorem applied to a concrete volume-mode
configuration with empty namespace. -/
theorem C5_witness :
    SetUp envOk { cfgFiles with LogMode := "var", NameSpace := "" } initialState
      = ⟨some .logNameSpaceNotSet, initialState, []⟩ :=
  C5_theorem envOk { cfgFiles with LogMode := "var", NameSpace := "" }
    initialState rfl rfl

/-- Claim C6: for every direct-file-mode configuration (neither console
nor volume mode) whose base path is empty, `SetUp` returns
`ErrLogPathNotSet`, leaves the state unchanged, and performs no setup side
effects. -/
theorem C6_theorem (env : Env) (c : Config) (s : LogState)
    (h1 : c.LogMode ≠ consoleMode) (h2 : c.LogMode ≠ varMode) (hp : c.Path = "") :
    SetUp env c s = ⟨some .logPathNotSet, s, []⟩ := by
  simp [SetUp, setupWithFiles, h1, h2, hp]

/-- Claim C6, witness: the theorem applied to a concrete file-mode
configuration with empty path. -/
theorem C6_witness :
    SetUp envOk { cfgFiles with Path := "" } initialState
      = ⟨some .logPathNotSet, initialState, []⟩ :=
  C6_theorem envOk { cfgFiles with Path := "" } initialState
    (by decide) (by decide) rfl

/-- Claim C7: `getHostname` returns the fixed default `"log4g"` when host
resolution errors or yields an empty name, and the resolved name when it
is non-empty; a resolution failure is never surfaced by volume-mode setup,
whose outcome under a failing resolver equals its outcome when the
resolver returns the default name. -/
theorem C7_theorem (env : Env) :
    (env.hostname = .error () → getHostname env = defaultHostName) ∧
    (env.hostname = .ok "" → getHostname env = defaultHostName) ∧
    (∀ h, h ≠ "" → env.hostname = .ok h → getHostname env = h) ∧
    (∀ c s, env.hostname = .error () →
      setupWithVolume env c s
        = setupWithVolume { env with hostname := .ok defaultHostName } c s) := by
  refine ⟨?_, ?_, ?_, ?_⟩
  · intro herr
    simp [getHostname, herr]
  · intro hemp
    simp [getHostname, hemp]
  · intro h hne hok
    simp [getHostname, hok, hne]
  · intro c s herr
    unfold setupWithVolume
    by_cases hns : c.NameSpace = ""
    · simp [hns]
    · have hg : getHostname env
          = getHostname { env with hostname := .ok defaultHostName } := by
        simp [getHostname, herr, defaultHostName]
      simp only [hns, if_neg]
      rw [hg]
      exact setupWithFiles_env_irrel env _ rfl _ s

/-- Claim C7, witness: the theorem applied to the environment whose host
resolution fails: the hostname falls back to `"log4g"` and volume setup
behaves as with the default name. -/
theorem C7_witness :
    envHostErr.hostname = .error () ∧
    getHostname envHostErr = defaultHostName ∧
    setupWithVolume envHostErr { cfgFiles with NameSpace := "ns" } initialState
      = setupWithVolume { envHostErr with hostname := .ok defaultHostName }
          { cfgFiles with NameSpace := "ns" } initialState :=
  ⟨rfl, (C7_theorem envHostErr).1 rfl,
    (C7_theorem envHostErr).2.2.2 { cfgFiles with NameSpace := "ns" } initialState rfl⟩

/-- Claim C8: while the readiness flag is unset every logging category
(info, error, slow, stat, stack) writes its formatted message to the raw
fallback writer; once the flag is set, info/error/slow/stat write to their
configured sink and the stack category to the `LessLogger`. -/
theorem C8_theorem (st : LogState) (nowStr callerStr msg stackStr : String) :
    (st.initialized = 0 →
      infoSync st nowStr msg = .toFallback (addTime nowStr msg) ∧
      slowSync st nowStr msg = .toFallback (addTime nowStr msg) ∧
      statSync st nowStr msg = .toFallback (addTime nowStr msg) ∧
      errorSync st nowStr callerStr msg
        = .toFallback (addTimeAndCaller nowStr callerStr msg) ∧
      stackSync st nowStr msg stackStr
        = .toFallback (addTime nowStr (msg ++ "\n" ++ stackStr))) ∧
    (st.initialized ≠ 0 →
      (∀ w, st.infoLog = some w →
        infoSync st nowStr msg = .toSink w (addTime nowStr msg)) ∧
      (∀ w, st.slowLog = some w →
        slowSync st nowStr msg = .toSink w (addTime nowStr msg)) ∧
      (∀ w, st.statLog = some w →
        statSync st nowStr msg = .toSink w (addTime nowStr msg)) ∧
      (∀ w, st.errorLog = some w →
        errorSync st nowStr callerStr msg
          = .toSink w (addTimeAndCaller nowStr callerStr msg)) ∧
      stackSync st nowStr msg stackStr
        = .toLess st.stackLog (msg ++ "\n" ++ stackStr)) := by
  constructor
  · intro h0
    simp [infoSync, slowSync, statSync, errorSync, stackSync, output, outputError, h0]
  · intro hne
    refine ⟨?_, ?_, ?_, ?_, ?_⟩ <;>
      first
        | (intro w hw
           simp [infoSync, slowSync, statSync, errorSync, output, outputError, hne, hw])
        | simp [stackSync, hne]

/-- Claim C8, witness: the theorem applied before initialization (zero
state: info goes to the fallback) and after file-mode setup (info goes to
the access-log sink). -/
theorem C8_witness :
    (initialState.initialized = 0 ∧
      infoSync initialState "t" "m" = .toFallback (addTime "t" "m")) ∧
    (stFiles.initialized ≠ 0 ∧
      infoSync stFiles "t" "m" = .toSink (.rotating "logs/access.log") (addTime "t" "m")) :=
  ⟨⟨rfl, ((C8_theorem initialState "t" "c" "m" "s").1 rfl).1⟩,
    ⟨by decide,
      ((C8_theorem stFiles "t" "c" "m" "s").2 (by decide)).1
        (.rotating "logs/access.log") rfl⟩⟩

/-- Claim C9: console-mode setup sets `writeConsole`, and in any state
with `writeConsole` set, `Close` returns `nil` immediately, closes no
sink, and leaves the whole state (readiness flag and sinks included)
unchanged, so logging after `Close` behaves exactly as before. -/
theorem C9_theorem (env : Env) (st : LogState) (hwc : st.writeConsole = true) :
    (∀ s : LogState, (setupWithConsole s).writeConsole = true) ∧
    Close env st = ⟨none, st, []⟩ := by
  constructor
  · intro s
    unfold setupWithConsole
    by_cases h : s.onceDone = true <;> simp [h]
  · simp [Close, hwc]

/-- Claim C9, witness: the theorem applied to the state reached by
console-mode setup from the zero state. -/
theorem C9_witness :
    (setupWithConsole initialState).writeConsole = true ∧
    Close envOk (setupWithConsole initialState)
      = ⟨none, setupWithConsole initialState, []⟩ :=
  ⟨(C9_theorem envOk (setupWithConsole initialState) rfl).1 initialState,
    (C9_theorem envOk (setupWithConsole initialState) rfl).2⟩

/-- Claim C10: after console-mode setup the stat writer is the very info
writer (standard output with the info tag), so a stat-category message
produces exactly the same write event as an info-category message with the
same payload. -/
theorem C10_theorem (nowStr msg : String) :
    (setupWithConsole initialState).statLog = (setupWithConsole initialState).infoLog ∧
    (setupWithConsole initialState).statLog = some (.consoleWriter .stdout infoPfx) ∧
    statSync (setupWithConsole initialState) nowStr msg
      = infoSync (setupWithConsole initialState) nowStr msg ∧
    statSync (setupWithConsole initialState) nowStr msg
      = .toSink (.consoleWriter .stdout infoPfx) (addTime nowStr msg) :=
  ⟨rfl, rfl, rfl, rfl⟩

end Log4g
